import Mathlib

/-!
# Verification of the `rangefinder` lidar driver core

A shallow embedding, in Lean 4, of the protocol codec, scan state machine
and ingestion pipeline of `src/sl/lidar.rs` (with the result-code constants
of `src/sl/types.rs`).  Bytes are modelled as `Nat` with explicit masking
where the Rust code relies on `u8`/`u16` arithmetic; fallible operations
return `Except`/`Option`; Rust panics are modelled as a distinguished
`Outcome.panicked` value (or `Option.none` for frame builders).
-/

namespace Rangefinder

/-- The decoded scan measurement (`struct Sample`, lidar.rs lines 24-30). -/
structure Sample where
  start : Bool
  intensity : Nat
  angle : Nat
  distance : Nat
deriving Repr, DecidableEq

/-- The parsed 7-byte response header (`ResponseDescriptor` of `sl/mod.rs`,
populated in `Lidar::rx`, lidar.rs lines 83-87). -/
structure ResponseDescriptor where
  len : Nat
  send_mode : Nat
  data_type : Nat
deriving Repr, DecidableEq

/-- The raw 7 descriptor bytes read off the wire (`[u8; 7]` in `Lidar::rx`). -/
structure DescriptorBytes where
  b0 : Nat
  b1 : Nat
  b2 : Nat
  b3 : Nat
  b4 : Nat
  b5 : Nat
  b6 : Nat
deriving Repr, DecidableEq

/-- Modelled from the spec: the error type `RxError` lives in the missing
`sl/error.rs`; `lidar.rs` uses exactly two constructors, `Corrupted`
(carrying the 7 raw descriptor bytes) and `PortError` (wrapping the
transport's native error, modelled here as a numeric code). -/
inductive RxError where
  | Corrupted : DescriptorBytes → RxError
  | PortError : Nat → RxError
deriving Repr, DecidableEq

/-- A descriptor plus payload (`Response` of `sl/mod.rs`, built in `Lidar::rx`). -/
structure Response where
  descriptor : ResponseDescriptor
  data : List Nat
deriving Repr, DecidableEq

/-- Device state (`enum LidarState`, lidar.rs lines 16-22). -/
inductive LidarState where
  | Idle
  | Processing
  | Scanning
  | ProtectionStop
deriving Repr, DecidableEq

/-- `Lidar::checksum` (lidar.rs lines 53-55): left XOR-fold seeded at 0. -/
def checksum (payload : List Nat) : Nat :=
  payload.foldl (fun acc x => acc ^^^ x) 0

/-- Modelled from the spec: `crate::util::read_le_u32` lives in the missing
`util.rs`; the spec fixes its behaviour as reading 4 bytes little-endian. -/
def read_le_u32 (c0 c1 c2 c3 : Nat) : Nat :=
  c0 + 256 * c1 + 65536 * c2 + 16777216 * c3

/-- The descriptor-decoding portion of `Lidar::rx` (lidar.rs lines 73-87):
reject the frame as `Corrupted` (carrying the raw bytes) unless the first
two bytes are the magic pair `[0xa5, 0x5a]`; otherwise extract `send_mode`
from the top two bits of byte 5, clear them, and read bytes 2..5
little-endian as `len`. -/
def decode_descriptor (d : DescriptorBytes) : Except RxError ResponseDescriptor :=
  if d.b0 = 0xa5 ∧ d.b1 = 0x5a then
    let send_mode := (d.b5 &&& 0b11000000) >>> 6
    let data_type := d.b6
    let b5 := d.b5 ^^^ (d.b5 &&& 0b11000000)
    let len := read_le_u32 d.b2 d.b3 d.b4 b5
    .ok { len := len, send_mode := send_mode, data_type := data_type }
  else
    .error (.Corrupted d)

set_option maxRecDepth 4096

/-- For a byte, masking the top two bits and shifting down is division by 64. -/
theorem byte_top_bits (b : Nat) (h : b < 256) : (b &&& 192) >>> 6 = b / 64 := by
  revert h
  revert b
  decide

/-- For a byte, XOR-ing out the top two bits is reduction mod 64. -/
theorem byte_clear_top_bits (b : Nat) (h : b < 256) : b ^^^ (b &&& 192) = b % 64 := by
  revert h
  revert b
  decide

/-- C1: decoding a 7-byte descriptor fails with `Corrupted` carrying exactly
those 7 raw bytes iff the first two bytes are not `[0xA5, 0x5A]`; otherwise
it succeeds with `send_mode` the top two bits of byte 5 shifted down,
`data_type` byte 6, and `len` the little-endian 32-bit value of bytes 2..5
with the top two bits of byte 5 cleared. -/
theorem decode_descriptor_spec (d : DescriptorBytes) (h5 : d.b5 < 256) :
    (decode_descriptor d = .error (.Corrupted d) ↔ ¬(d.b0 = 0xa5 ∧ d.b1 = 0x5a)) ∧
    ((d.b0 = 0xa5 ∧ d.b1 = 0x5a) →
      decode_descriptor d = .ok
        { len := d.b2 + 256 * d.b3 + 65536 * d.b4 + 16777216 * (d.b5 % 64),
          send_mode := d.b5 / 64,
          data_type := d.b6 }) := by
  unfold decode_descriptor
  by_cases hm : d.b0 = 0xa5 ∧ d.b1 = 0x5a
  · rw [if_pos hm]
    refine ⟨⟨fun h => absurd h (by simp), fun h => absurd hm h⟩, fun _ => ?_⟩
    simp only [read_le_u32, byte_top_bits d.b5 h5, byte_clear_top_bits d.b5 h5]
  · rw [if_neg hm]
    exact ⟨⟨fun _ => hm, fun _ => rfl⟩, fun h => absurd h hm⟩

/-- Witness for C1 at the descriptor bytes `[0xa5, 0x5a, 0x14, 0, 0, 0x40, 4]`. -/
theorem decode_descriptor_spec_witness :
    decode_descriptor ⟨0xa5, 0x5a, 0x14, 0, 0, 0x40, 4⟩ =
      .ok { len := 0x14, send_mode := 1, data_type := 4 } := by
  have h := (decode_descriptor_spec ⟨0xa5, 0x5a, 0x14, 0, 0, 0x40, 4⟩ (by decide)).2
    (by exact ⟨rfl, rfl⟩)
  simpa using h

/-- C3: `checksum` is the left XOR-fold seeded at 0, and folding a frame
extended with its own trailing checksum byte yields 0. -/
theorem checksum_frame_zero (p : List Nat) :
    checksum p = p.foldl (fun acc x => acc ^^^ x) 0 ∧
    checksum (p ++ [checksum p]) = 0 := by
  refine ⟨rfl, ?_⟩
  show (p ++ [checksum p]).foldl (fun acc x => acc ^^^ x) 0 = 0
  rw [List.foldl_append]
  show checksum p ^^^ checksum p = 0
  exact Nat.xor_self _

/-- The parity check of one reader iteration (lidar.rs line 241):
`data[0] & 0b01 == !data[0] & 0b10 && data[1] & 0b01 == 1`, with the Rust
`!` the bitwise `u8` complement, modelled as XOR with 255. -/
def parity_ok (d0 d1 : Nat) : Bool :=
  (d0 &&& 1 == (d0 ^^^ 255) &&& 2) && (d1 &&& 1 == 1)

/-- The sample construction of `Lidar::reader_thread` (lidar.rs lines
245-250), one quadruplet byte per argument. -/
def decode_sample (d0 d1 d2 d3 d4 : Nat) : Sample :=
  { start := (d0 &&& 1) != 0,
    intensity := d0 >>> 2,
    angle := ((d2 <<< 8) ||| (d1 >>> 1)) / 64,
    distance := ((d4 <<< 8) ||| d3) / 4 }

/-- The decode step of one reader iteration (lidar.rs lines 240-250): the
parity check is evaluated but only logged, so the sample is decoded and
returned regardless of its outcome. -/
def decode_step (d0 d1 d2 d3 d4 : Nat) : Option Sample :=
  some (decode_sample d0 d1 d2 d3 d4)

/-- Shifting a byte into the high half and OR-ing in a low byte is the
little-endian composition `256 * hi + lo`. -/
theorem lor_shiftLeft8 (x y : Nat) (hy : y < 256) : (x <<< 8) ||| y = 256 * x + y := by
  have h : x <<< 8 = 2 ^ 8 * x := by
    rw [Nat.shiftLeft_eq]
    ring
  rw [h, ← Nat.mul_add_lt_is_or (show y < 2 ^ 8 by omega) x]

/-- Field-level arithmetic characterisation of `decode_sample` on bytes:
the helper both C2 and C5 build on. -/
theorem decode_sample_fields (d0 d1 d2 d3 d4 : Nat)
    (h1 : d1 < 256) (h3 : d3 < 256) :
    ((decode_sample d0 d1 d2 d3 d4).start = true ↔ d0 % 2 = 1) ∧
    (decode_sample d0 d1 d2 d3 d4).intensity = d0 / 4 ∧
    (decode_sample d0 d1 d2 d3 d4).angle = (256 * d2 + d1 / 2) / 64 ∧
    (decode_sample d0 d1 d2 d3 d4).distance = (256 * d4 + d3) / 4 := by
  refine ⟨?_, ?_, ?_, ?_⟩
  · show ((d0 &&& 1) != 0) = true ↔ d0 % 2 = 1
    rw [Nat.and_one_is_mod]
    have hlt : d0 % 2 < 2 := Nat.mod_lt d0 (by decide)
    simp only [bne_iff_ne, ne_eq]
    omega
  · show d0 >>> 2 = d0 / 4
    rw [Nat.shiftRight_eq_div_pow]
  · show ((d2 <<< 8) ||| (d1 >>> 1)) / 64 = (256 * d2 + d1 / 2) / 64
    have hb : d1 >>> 1 < 256 := by
      rw [Nat.shiftRight_eq_div_pow]
      omega
    rw [lor_shiftLeft8 d2 (d1 >>> 1) hb, Nat.shiftRight_eq_div_pow]
  · show ((d4 <<< 8) ||| d3) / 4 = (256 * d4 + d3) / 4
    rw [lor_shiftLeft8 d4 d3 h3]

/-- C2: a decoded sample satisfies `start = bit 0 of byte 0`,
`intensity = byte0 >> 2`, `angle = ((byte2 << 8) | (byte1 >> 1)) / 64` and
`distance = ((byte4 << 8) | byte3) / 4` (stated arithmetically), and the
quadruplet `[0x01, 0x01, 0x00, 0x00, 0x00]` decodes to
`start = true, intensity = 0, angle = 0, distance = 0`. -/
theorem decode_sample_spec (d0 d1 d2 d3 d4 : Nat)
    (h0 : d0 < 256) (h1 : d1 < 256) (h2 : d2 < 256) (h3 : d3 < 256) (h4 : d4 < 256) :
    ((decode_sample d0 d1 d2 d3 d4).start = true ↔ d0 % 2 = 1) ∧
    (decode_sample d0 d1 d2 d3 d4).intensity = d0 / 4 ∧
    (decode_sample d0 d1 d2 d3 d4).angle = (256 * d2 + d1 / 2) / 64 ∧
    (decode_sample d0 d1 d2 d3 d4).distance = (256 * d4 + d3) / 4 ∧
    decode_sample 0x01 0x01 0x00 0x00 0x00 =
      { start := true, intensity := 0, angle := 0, distance := 0 } := by
  obtain ⟨hs, hi, ha, hd⟩ := decode_sample_fields d0 d1 d2 d3 d4 h1 h3
  exact ⟨hs, hi, ha, hd, by decide⟩

/-- Witness for C2 at the quadruplet `[0x03, 0x03, 0x02, 0x05, 0x01]`. -/
theorem decode_sample_spec_witness :
    (decode_sample 3 3 2 5 1).start = true ∧
    (decode_sample 3 3 2 5 1).intensity = 0 ∧
    (decode_sample 3 3 2 5 1).angle = 8 ∧
    (decode_sample 3 3 2 5 1).distance = 65 := by
  obtain ⟨hs, hi, ha, hd, _⟩ :=
    decode_sample_spec 3 3 2 5 1 (by decide) (by decide) (by decide) (by decide) (by decide)
  exact ⟨hs.mpr (by decide), by rw [hi], by rw [ha], by rw [hd]⟩

/-- C5 counterexample: the quadruplet `[0, 0, 0xFF, 0, 0]` decodes to
`angle = 1020`, which violates the claimed bound `angle < 16384 / 64`. -/
theorem decode_sample_angle_bound_cex :
    (decode_sample 0 0 0xff 0 0).angle = 1020 ∧
    ¬((decode_sample 0 0 0xff 0 0).angle < 16384 / 64) := by
  decide

/-- C5 (amended): sample decoding is total — the reader's decode step always
produces the decoded sample, with the parity check never gating it — and for
byte inputs the result satisfies `angle < 65536 / 64`,
`distance < 65536 / 4` and `intensity ≤ 63`. -/
theorem decode_sample_total_bounds (d0 d1 d2 d3 d4 : Nat)
    (h0 : d0 < 256) (h1 : d1 < 256) (h2 : d2 < 256) (h3 : d3 < 256) (h4 : d4 < 256) :
    decode_step d0 d1 d2 d3 d4 = some (decode_sample d0 d1 d2 d3 d4) ∧
    (parity_ok d0 d1 = false → (decode_step d0 d1 d2 d3 d4).isSome) ∧
    (decode_sample d0 d1 d2 d3 d4).angle < 65536 / 64 ∧
    (decode_sample d0 d1 d2 d3 d4).distance < 65536 / 4 ∧
    (decode_sample d0 d1 d2 d3 d4).intensity ≤ 63 := by
  obtain ⟨_, hi, ha, hd⟩ := decode_sample_fields d0 d1 d2 d3 d4 h1 h3
  refine ⟨rfl, fun _ => rfl, ?_, ?_, ?_⟩
  · rw [ha, show (65536 : Nat) / 64 = 1024 from rfl, Nat.div_lt_iff_lt_mul (by decide)]
    omega
  · rw [hd, show (65536 : Nat) / 4 = 16384 from rfl, Nat.div_lt_iff_lt_mul (by decide)]
    omega
  · rw [hi]
    omega

/-- Witness for C5 (amended) at the quadruplet `[0xFF, 0xFE, 0xFF, 0xFF, 0xFF]`
(whose parity check fails). -/
theorem decode_sample_total_bounds_witness :
    decode_step 255 254 255 255 255 = some (decode_sample 255 254 255 255 255) ∧
    parity_ok 255 254 = false ∧
    (decode_sample 255 254 255 255 255).angle < 65536 / 64 ∧
    (decode_sample 255 254 255 255 255).distance < 65536 / 4 ∧
    (decode_sample 255 254 255 255 255).intensity ≤ 63 := by
  obtain ⟨h1, _, h3, h4, h5⟩ :=
    decode_sample_total_bounds 255 254 255 255 255
      (by decide) (by decide) (by decide) (by decide) (by decide)
  exact ⟨h1, by decide, h3, h4, h5⟩

/-- The 5 raw bytes of one streaming sample quadruplet
(`let mut data = [0u8; 5]`, lidar.rs line 223). -/
structure Quad where
  d0 : Nat
  d1 : Nat
  d2 : Nat
  d3 : Nat
  d4 : Nat
deriving Repr, DecidableEq

/-- Decoding a quadruplet (lidar.rs lines 245-250). -/
def decode_quad (q : Quad) : Sample :=
  decode_sample q.d0 q.d1 q.d2 q.d3 q.d4

/-- What one iteration of the reader loop observes: the device state read at
the top of the loop (lidar.rs line 214) and the outcome of contending for
the channel — `none` models both a failed `try_lock` and a failed read
(each makes the iteration `continue` without touching the buffer), `some q`
a successfully read quadruplet. -/
structure IterInput where
  mode : LidarState
  read : Option Quad
deriving Repr, DecidableEq

/-- The loop of `Lidar::reader_thread` (lidar.rs lines 213-259) over a finite
trace of per-iteration observations, carrying the `seeking` flag and the
shared buffer; returns the buffer when the loop breaks (observed state not
`Scanning`) or the trace is exhausted. The parity check (line 241) is
evaluated but non-gating, so it does not appear in the control flow. -/
def reader_run : List IterInput → Bool → List Sample → List Sample
  | [], _, buf => buf
  | it :: rest, seeking, buf =>
    match it.mode with
    | .Scanning =>
      match it.read with
      | none => reader_run rest seeking buf
      | some q =>
        let sample := decode_quad q
        if seeking && !sample.start then reader_run rest seeking buf
        else reader_run rest false (buf ++ [sample])
    | _ => buf

/-- A trace in which every iteration observes `Scanning` and reads one
quadruplet successfully. -/
def scanning_trace (qs : List Quad) : List IterInput :=
  qs.map fun q => { mode := .Scanning, read := some q }

/-- Once the seeking gate has been passed, every decoded sample is appended. -/
theorem reader_run_not_seeking (qs : List Quad) (buf : List Sample) :
    reader_run (scanning_trace qs) false buf = buf ++ qs.map decode_quad := by
  induction qs generalizing buf with
  | nil => simp [scanning_trace, reader_run]
  | cons q rest ih =>
    have step : reader_run (scanning_trace (q :: rest)) false buf =
        reader_run (scanning_trace rest) false (buf ++ [decode_quad q]) := by
      simp [scanning_trace, reader_run]
    rw [step, ih]
    simp

/-- While seeking, the retained samples are exactly the decoded stream with
its longest prefix of non-start samples dropped. -/
theorem reader_run_seeking (qs : List Quad) (buf : List Sample) :
    reader_run (scanning_trace qs) true buf =
      buf ++ (qs.map decode_quad).dropWhile (fun s => !s.start) := by
  induction qs generalizing buf with
  | nil => simp [scanning_trace, reader_run]
  | cons q rest ih =>
    by_cases h : (decode_quad q).start = true
    · have step : reader_run (scanning_trace (q :: rest)) true buf =
          reader_run (scanning_trace rest) false (buf ++ [decode_quad q]) := by
        simp [scanning_trace, reader_run, h]
      rw [step, reader_run_not_seeking]
      simp [List.dropWhile_cons, h]
    · have step : reader_run (scanning_trace (q :: rest)) true buf =
          reader_run (scanning_trace rest) true buf := by
        simp [scanning_trace, reader_run, h]
      rw [step, ih]
      simp [List.dropWhile_cons, h]

/-- C4: for a freshly started reader (empty buffer, seeking) fed a stream of
successfully read quadruplets, all samples before the first `start = true`
sample are discarded, everything from the first start sample on (including
later start samples) is appended, and the first retained sample always has
`start = true`. -/
theorem seeking_gate_spec (qs : List Quad) :
    reader_run (scanning_trace qs) true [] =
      (qs.map decode_quad).dropWhile (fun s => !s.start) ∧
    (∀ s, (reader_run (scanning_trace qs) true []).head? = some s → s.start = true) := by
  have h := reader_run_seeking qs []
  rw [List.nil_append] at h
  refine ⟨h, fun s hs => ?_⟩
  rw [h] at hs
  have hd := List.head?_dropWhile_not (fun s => !s.start) (qs.map decode_quad)
  rw [hs] at hd
  simpa using hd

/-- Witness for C4: a non-start quadruplet followed by a start quadruplet
retains only the decoded start sample, whose `start` field is `true`. -/
theorem seeking_gate_spec_witness :
    reader_run (scanning_trace [⟨0, 0, 0, 0, 0⟩, ⟨1, 1, 0, 0, 0⟩]) true [] =
      [{ start := true, intensity := 0, angle := 0, distance := 0 }] ∧
    ({ start := true, intensity := 0, angle := 0, distance := 0 } : Sample).start = true := by
  obtain ⟨h1, h2⟩ := seeking_gate_spec [⟨0, 0, 0, 0, 0⟩, ⟨1, 1, 0, 0, 0⟩]
  refine ⟨by rw [h1]; decide, ?_⟩
  exact h2 _ (by rw [h1]; decide)

/-- Modelled from the spec: the one-byte wire code of the `Stop` command;
the `SlLidarCmd` enum lives in the missing `cmd.rs`, and the spec fixes only
that each command maps to a fixed one-byte opcode (the concrete value is
irrelevant to the claims proved here). -/
def stop_opcode : Nat := 0x25

/-- Modelled from the spec: the one-byte wire code of the `Reset` command
(missing `cmd.rs`, same caveat as `stop_opcode`). -/
def reset_opcode : Nat := 0x40

/-- The 2-byte frame written by `Lidar::stop` (lidar.rs line 103). -/
def stop_frame (reset : Bool) : List Nat :=
  [0xa5, if reset then reset_opcode else stop_opcode]

/-- `Lidar::stop` (lidar.rs lines 102-110): writes the stop/reset frame and,
on a successful write, sets the shared state to `Idle` (the ≈2 ms settling
sleep is not modelled); a failed write panics, modelled as `none`. The
previous state is overwritten unconditionally. -/
def stop (_state : LidarState) (reset : Bool) (writeOk : Bool) :
    Option (List Nat × LidarState) :=
  if writeOk then some (stop_frame reset, .Idle) else none

/-- C7: a successful `stop(reset = false)` moves the state from `Scanning`
to `Idle`, and a reader iteration that observes any state other than
`Scanning` at the top of its loop terminates immediately, leaving the
buffer unchanged regardless of the rest of the trace. -/
theorem stop_terminates_reader (it : IterInput) (rest : List IterInput)
    (seeking : Bool) (buf : List Sample)
    (h : it.mode ≠ LidarState.Scanning) :
    stop .Scanning false true = some (stop_frame false, LidarState.Idle) ∧
    LidarState.Idle ≠ LidarState.Scanning ∧
    reader_run (it :: rest) seeking buf = buf := by
  refine ⟨rfl, by decide, ?_⟩
  obtain ⟨mode, rd⟩ := it
  cases mode
  case Scanning => exact absurd rfl h
  all_goals rfl

/-- Witness for C7: a reader iteration observing `Idle` (as set by `stop`)
halts with an unchanged (empty) buffer even though a start quadruplet was
available to read. -/
theorem stop_terminates_reader_witness :
    stop .Scanning false true = some (stop_frame false, LidarState.Idle) ∧
    LidarState.Idle ≠ LidarState.Scanning ∧
    reader_run [{ mode := .Idle, read := some ⟨1, 1, 0, 0, 0⟩ }] true [] = [] :=
  stop_terminates_reader { mode := .Idle, read := some ⟨1, 1, 0, 0, 0⟩ } [] true []
    (by decide)

/-- `Lidar::get_n_samples` (lidar.rs lines 278-287): poll until the buffer
holds at least `n` samples, then return a clone of the first `n`
(`clone().into_iter().take(n)`). `none` models the call still blocked in
its polling loop; the buffer itself is never modified. -/
def get_n_samples (buffer : List Sample) (n : Nat) : Option (List Sample) :=
  if n ≤ buffer.length then some (buffer.take n) else none

/-- C8: once the buffer holds at least `n` samples, `get_n_samples n`
returns exactly the first `n` as a non-consuming snapshot; under
append-only growth (`ext` arrives later), an earlier call with a smaller
`m` returns exactly the first `m` samples of a later call's result. -/
theorem get_n_samples_spec (b1 ext : List Sample) (n m : Nat)
    (hn : n ≤ b1.length) (hm : m ≤ n) :
    get_n_samples (b1 ++ ext) n = some ((b1 ++ ext).take n) ∧
    ((b1 ++ ext).take n).length = n ∧
    get_n_samples b1 m = some (((b1 ++ ext).take n).take m) := by
  have hlen : n ≤ (b1 ++ ext).length := by
    rw [List.length_append]
    omega
  refine ⟨?_, ?_, ?_⟩
  · rw [get_n_samples, if_pos hlen]
  · rw [List.length_take]
    omega
  · rw [get_n_samples, if_pos (Nat.le_trans hm hn)]
    congr 1
    rw [List.take_take, Nat.min_eq_left hm, List.take_append_of_le_length (Nat.le_trans hm hn)]

/-- Witness for C8 with a 2-sample buffer later grown by a third sample,
`n = 2`, `m = 1`. -/
theorem get_n_samples_spec_witness :
    get_n_samples [⟨true, 0, 0, 0⟩, ⟨false, 1, 2, 3⟩, ⟨false, 4, 5, 6⟩] 2 =
      some [⟨true, 0, 0, 0⟩, ⟨false, 1, 2, 3⟩] ∧
    get_n_samples [⟨true, 0, 0, 0⟩, ⟨false, 1, 2, 3⟩] 1 = some [⟨true, 0, 0, 0⟩] := by
  obtain ⟨h1, _, h3⟩ :=
    get_n_samples_spec [⟨true, 0, 0, 0⟩, ⟨false, 1, 2, 3⟩] [⟨false, 4, 5, 6⟩] 2 1
      (by decide) (by decide)
  exact ⟨h1, h3⟩

/-- Modelled from the spec: the configuration-selector enumeration
`ScanModeConfEntry` lives in the missing `cmd.rs`; the spec fixes the
distinguished members `Count` and `Typical` (short request form) against
all remaining members (long form). -/
inductive ScanModeConfEntry where
  | Count
  | UsPerSample
  | MaxDistance
  | AnsType
  | Typical
deriving Repr, DecidableEq

/-- Modelled from the spec: the `u32` wire code of each selector (missing
`cmd.rs`); the claims proved here do not depend on the concrete values. -/
def entry_code : ScanModeConfEntry → Nat
  | .Count => 0x70
  | .UsPerSample => 0x71
  | .MaxDistance => 0x74
  | .AnsType => 0x75
  | .Typical => 0x7c

/-- Modelled from the spec: the one-byte opcode of `GetLidarConf` (missing
`cmd.rs`); the claims proved here do not depend on its value. -/
def get_lidar_conf_opcode : Nat := 0x84

/-- `u32::to_le_bytes`. -/
def u32_le_bytes (n : Nat) : List Nat :=
  [n % 256, n / 256 % 256, n / 65536 % 256, n / 16777216 % 256]

/-- `u16::to_le_bytes`. -/
def u16_le_bytes (n : Nat) : List Nat :=
  [n % 256, n / 256 % 256]

/-- The request-building half of `Lidar::get_lidar_conf` (lidar.rs lines
153-175): a 12-byte scratch array receives the sync byte, the opcode and
the 4-byte little-endian selector code at bytes 3..7; `Count`/`Typical`
yield the 8-byte short form (length field 4, checksum over the first 7
bytes), every other selector the 12-byte long form (length field 8, 2-byte
little-endian payload at bytes 7..9, checksum over the first 11 bytes).
The long form unwraps `payload`; `none` models the panic when it is
absent. -/
def get_lidar_conf_req (entry : ScanModeConfEntry) (payload : Option Nat) :
    Option (List Nat) :=
  let c := u32_le_bytes (entry_code entry)
  let req : List Nat :=
    [0xa5, get_lidar_conf_opcode, 0, c.getD 0 0, c.getD 1 0, c.getD 2 0, c.getD 3 0,
      0, 0, 0, 0, 0]
  match entry with
  | .Count | .Typical =>
    let req := req.set 2 4
    let req := req.set 7 (checksum (req.take 7))
    some (req.take 8)
  | _ =>
    match payload with
    | none => none
    | some p =>
      let req := req.set 2 8
      let pb := u16_le_bytes p
      let req := (req.set 7 (pb.getD 0 0)).set 8 (pb.getD 1 0)
      let req := req.set 11 (checksum (req.take 11))
      some (req.take 12)

/-- The 8-byte short-form configuration request, written out flat. -/
def short_frame (entry : ScanModeConfEntry) : List Nat :=
  let front := [0xa5, get_lidar_conf_opcode, 4] ++ u32_le_bytes (entry_code entry)
  front ++ [checksum front]

/-- The 12-byte long-form configuration request, written out flat. -/
def long_frame (entry : ScanModeConfEntry) (p : Nat) : List Nat :=
  let front := [0xa5, get_lidar_conf_opcode, 8] ++ u32_le_bytes (entry_code entry)
    ++ u16_le_bytes p ++ [0, 0]
  front ++ [checksum front]

/-- `SlLidarResponseGetLidarConf` (declared in the missing `cmd.rs`; its
shape is fixed by the construction in lidar.rs lines 178-181). -/
structure SlLidarResponseGetLidarConf where
  conf_type : Nat
  payload : List Nat
deriving Repr, DecidableEq

/-- The response-decoding half of `Lidar::get_lidar_conf` (lidar.rs lines
178-181): `conf_type` is the little-endian `u32` of the first 4 data
bytes, `payload` the remaining bytes; fewer than 4 data bytes make the
slice `data[..4]` panic, modelled as `none`. -/
def decode_conf_response (data : List Nat) : Option SlLidarResponseGetLidarConf :=
  if 4 ≤ data.length then
    some { conf_type :=
             read_le_u32 (data.getD 0 0) (data.getD 1 0) (data.getD 2 0) (data.getD 3 0),
           payload := data.drop 4 }
  else none

/-- C6: `Count`/`Typical` selectors produce the 8-byte short frame (no
payload bytes, checksum over the first 7 bytes); every other selector
produces the 12-byte long frame carrying the 2-byte little-endian payload
at bytes 7..9 and a checksum over the first 11 bytes; and decoding a
captured response reproduces the 4-byte little-endian configuration-type
tag and the remaining payload bytes unchanged. -/
theorem get_lidar_conf_spec (entry : ScanModeConfEntry) (pl : Option Nat) (p : Nat)
    (t0 t1 t2 t3 : Nat) (rest : List Nat) :
    ((entry = .Count ∨ entry = .Typical) →
      get_lidar_conf_req entry pl = some (short_frame entry) ∧
      (short_frame entry).length = 8 ∧
      short_frame entry =
        [0xa5, get_lidar_conf_opcode, 4] ++ u32_le_bytes (entry_code entry) ++
          [checksum ([0xa5, get_lidar_conf_opcode, 4] ++ u32_le_bytes (entry_code entry))]) ∧
    ((entry ≠ .Count ∧ entry ≠ .Typical) →
      get_lidar_conf_req entry (some p) = some (long_frame entry p) ∧
      (long_frame entry p).length = 12 ∧
      (long_frame entry p).getD 7 0 = p % 256 ∧
      (long_frame entry p).getD 8 0 = p / 256 % 256 ∧
      (long_frame entry p).getD 11 0 = checksum ((long_frame entry p).take 11)) ∧
    decode_conf_response (t0 :: t1 :: t2 :: t3 :: rest) =
      some { conf_type := read_le_u32 t0 t1 t2 t3, payload := rest } := by
  refine ⟨?_, ?_, ?_⟩
  · rintro (rfl | rfl) <;> exact ⟨rfl, rfl, rfl⟩
  · rintro ⟨hc, ht⟩
    cases entry
    case Count => exact absurd rfl hc
    case Typical => exact absurd rfl ht
    all_goals exact ⟨rfl, rfl, rfl, rfl, rfl⟩
  · rw [decode_conf_response, if_pos (by simp)]
    rfl

/-- Witness for C6 at the selector `MaxDistance`, payload `5`, and the
captured response `[0x74, 0, 0, 0, 9, 9]`. -/
theorem get_lidar_conf_spec_witness :
    get_lidar_conf_req .MaxDistance (some 5) = some (long_frame .MaxDistance 5) ∧
    (long_frame .MaxDistance 5).length = 12 ∧
    decode_conf_response [0x74, 0, 0, 0, 9, 9] =
      some { conf_type := 0x74, payload := [9, 9] } := by
  obtain ⟨_, hl, hd⟩ := get_lidar_conf_spec .MaxDistance (some 5) 5 0x74 0 0 0 [9, 9]
  obtain ⟨h1, h2, _⟩ := hl ⟨by decide, by decide⟩
  refine ⟨h1, h2, ?_⟩
  rw [hd]
  rfl

/-- The transport behaviour a `single_req` interaction can observe: the
write result, the 7-byte descriptor read, and the payload read as a
function of the byte count requested. `Nat` codes model the transport's
native error values (the concrete error type lives in the out-of-scope
serial module). -/
structure WireIO where
  writeRes : Except Nat Unit
  descRead : Except Nat DescriptorBytes
  bodyRead : Nat → Except Nat (List Nat)

/-- `Lidar::rx` (lidar.rs lines 65-100): read the 7 descriptor bytes (a
transport failure surfaces as `PortError`), decode the descriptor
(`Corrupted` on a bad magic pair), then read exactly `len` payload bytes
(again `PortError` on failure). -/
def rx (io : WireIO) : Except RxError Response :=
  match io.descRead with
  | .error e => .error (.PortError e)
  | .ok db =>
    match decode_descriptor db with
    | .error err => .error err
    | .ok descriptor =>
      match io.bodyRead descriptor.len with
      | .error e => .error (.PortError e)
      | .ok data => .ok { descriptor := descriptor, data := data }

/-- `Lidar::single_req` (lidar.rs lines 57-63): write the request, then
`rx`; a write failure surfaces as `PortError`. The outcome does not depend
on the request bytes themselves. -/
def single_req (io : WireIO) (_req : List Nat) : Except RxError Response :=
  match io.writeRes with
  | .ok _ => rx io
  | .error e => .error (.PortError e)

/-- The observable outcome of a public command call: a returned value, or a
Rust panic (`expect`, `unwrap`, or out-of-range slicing). -/
inductive Outcome (α : Type) where
  | ok : α → Outcome α
  | panicked : Outcome α
deriving Repr, DecidableEq

/-- `SlLidarResponseDeviceInfoT` (declared in the missing `cmd.rs`; shape
fixed by the construction in lidar.rs lines 125-130). -/
structure SlLidarResponseDeviceInfoT where
  model : Nat
  firmware_version : Nat
  hardware_version : Nat
  serial_number : List Nat
deriving Repr, DecidableEq

/-- `SlLidarResponseDeviceHealthT` (missing `cmd.rs`; shape fixed by
lidar.rs lines 137-140). -/
structure SlLidarResponseDeviceHealthT where
  status : Nat
  error_code : Nat
deriving Repr, DecidableEq

/-- `SlLidarResponseSampleRateT` (missing `cmd.rs`; shape fixed by
lidar.rs lines 147-150). -/
structure SlLidarResponseSampleRateT where
  std_sample_duration_us : Nat
  express_sample_duration_us : Nat
deriving Repr, DecidableEq

/-- Modelled from the spec: the one-byte opcode of `GetDeviceInfo`
(missing `cmd.rs`); the claims proved here do not depend on its value. -/
def get_device_info_opcode : Nat := 0x50

/-- Modelled from the spec: the one-byte opcode of `GetDeviceHealth`
(missing `cmd.rs`). -/
def get_device_health_opcode : Nat := 0x52

/-- Modelled from the spec: the one-byte opcode of `GetSampleRate`
(missing `cmd.rs`). -/
def get_sample_rate_opcode : Nat := 0x59

/-- `Lidar::get_info` (lidar.rs lines 121-131): `.expect` panics on any
`single_req` error; the payload is then indexed at 0..20 (`data[4..20]`),
panicking when fewer than 20 bytes arrived. -/
def get_info (io : WireIO) : Outcome SlLidarResponseDeviceInfoT :=
  match single_req io [0xa5, get_device_info_opcode] with
  | .error _ => .panicked
  | .ok res =>
    let data := res.data
    if 20 ≤ data.length then
      .ok { model := data.getD 0 0,
            firmware_version := ((data.getD 2 0) <<< 8) ||| data.getD 1 0,
            hardware_version := data.getD 3 0,
            serial_number := (data.drop 4).take 16 }
    else .panicked

/-- `Lidar::get_health` (lidar.rs lines 133-141): `.expect` panics on any
`single_req` error; the payload is indexed at 0..3. -/
def get_health (io : WireIO) : Outcome SlLidarResponseDeviceHealthT :=
  match single_req io [0xa5, get_device_health_opcode] with
  | .error _ => .panicked
  | .ok res =>
    let data := res.data
    if 3 ≤ data.length then
      .ok { status := data.getD 0 0,
            error_code := ((data.getD 2 0) <<< 8) ||| data.getD 1 0 }
    else .panicked

/-- `Lidar::get_sample_rate` (lidar.rs lines 143-151): `.expect` panics on
any `single_req` error; the payload is indexed at 0..4. -/
def get_sample_rate (io : WireIO) : Outcome SlLidarResponseSampleRateT :=
  match single_req io [0xa5, get_sample_rate_opcode] with
  | .error _ => .panicked
  | .ok res =>
    let data := res.data
    if 4 ≤ data.length then
      .ok { std_sample_duration_us := ((data.getD 1 0) <<< 8) ||| data.getD 0 0,
            express_sample_duration_us := ((data.getD 3 0) <<< 8) ||| data.getD 2 0 }
    else .panicked

/-- `Lidar::get_lidar_conf` (lidar.rs lines 153-182) end to end: build the
request (panicking when the long form lacks its payload), issue it, panic
(`.expect`) on any `single_req` error, and decode the response (panicking
when fewer than 4 data bytes arrived). -/
def get_lidar_conf (io : WireIO) (entry : ScanModeConfEntry) (payload : Option Nat) :
    Outcome SlLidarResponseGetLidarConf :=
  match get_lidar_conf_req entry payload with
  | none => .panicked
  | some req =>
    match single_req io req with
    | .error _ => .panicked
    | .ok res =>
      match decode_conf_response res.data with
      | none => .panicked
      | some conf => .ok conf

/-- A transport whose write fails immediately with error code 0; the reads
would succeed but are never reached. -/
def failingWrite : WireIO :=
  { writeRes := .error 0,
    descRead := .ok ⟨0xa5, 0x5a, 0, 0, 0, 0, 0⟩,
    bodyRead := fun n => .ok (List.replicate n 0) }

/-- C9 counterexample: on a transport whose write fails, `single_req`
produces the typed error, but every public single-shot operation panics
(crashes the calling process) instead of surfacing it. -/
theorem command_ops_panic_cex :
    single_req failingWrite [0xa5, get_device_info_opcode] = .error (.PortError 0) ∧
    get_info failingWrite = .panicked ∧
    get_health failingWrite = .panicked ∧
    get_sample_rate failingWrite = .panicked ∧
    get_lidar_conf failingWrite .MaxDistance (some 0) = .panicked :=
  ⟨rfl, rfl, rfl, rfl, rfl⟩

/-- C9 (amended): `single_req` surfaces `TransportError` (`PortError`) and
`CorruptedFrame` (`Corrupted`) as a typed `Result` to its internal caller,
but each public single-shot operation unwraps that result with `expect`
and panics on failure instead of returning it. -/
theorem single_req_typed_errors (io : WireIO) (req : List Nat) :
    (∀ e, io.writeRes = .error e → single_req io req = .error (.PortError e)) ∧
    (∀ e, io.writeRes = .ok () → io.descRead = .error e →
      single_req io req = .error (.PortError e)) ∧
    (∀ db, io.writeRes = .ok () → io.descRead = .ok db →
      ¬(db.b0 = 0xa5 ∧ db.b1 = 0x5a) →
      single_req io req = .error (.Corrupted db)) ∧
    (∀ err, single_req io req = .error err →
      get_info io = .panicked ∧ get_health io = .panicked ∧
      get_sample_rate io = .panicked ∧
      (∀ p, get_lidar_conf io .MaxDistance (some p) = .panicked)) := by
  refine ⟨?_, ?_, ?_, ?_⟩
  · intro e h
    rw [single_req, h]
  · intro e hw hd
    rw [single_req, hw]
    rw [rx, hd]
  · intro db hw hd hm
    have hdd : decode_descriptor db = .error (.Corrupted db) := by
      simp only [decode_descriptor]
      rw [if_neg hm]
    simp only [single_req, hw, rx, hd, hdd]
  · intro err h
    have hinfo : single_req io [0xa5, get_device_info_opcode] = .error err := h
    have hhealth : single_req io [0xa5, get_device_health_opcode] = .error err := h
    have hrate : single_req io [0xa5, get_sample_rate_opcode] = .error err := h
    refine ⟨?_, ?_, ?_, fun p => ?_⟩
    · rw [get_info, hinfo]
    · rw [get_health, hhealth]
    · rw [get_sample_rate, hrate]
    · have hconf : single_req io (long_frame .MaxDistance p) = .error err := h
      show (match single_req io (long_frame .MaxDistance p) with
            | .error _ => (Outcome.panicked : Outcome SlLidarResponseGetLidarConf)
            | .ok res =>
              match decode_conf_response res.data with
              | none => .panicked
              | some conf => .ok conf) = .panicked
      rw [hconf]

/-- Witness for C9 (amended) at the failing-write transport. -/
theorem single_req_typed_errors_witness :
    single_req failingWrite [0xa5, 0x25] = .error (.PortError 0) ∧
    get_info failingWrite = .panicked := by
  obtain ⟨h1, _, _, h4⟩ := single_req_typed_errors failingWrite [0xa5, 0x25]
  have he := h1 0 rfl
  exact ⟨he, (h4 (.PortError 0) he).1⟩

/-- C10: for every selector other than `Count`/`Typical`, calling
`get_lidar_conf` with `payload = none` panics — the 2-byte payload is
unconditionally unwrapped while building the long-form frame, before any
transport interaction — whereas supplying `some` payload always yields a
request frame. -/
theorem get_lidar_conf_none_panics (io : WireIO) (entry : ScanModeConfEntry)
    (hc : entry ≠ .Count) (ht : entry ≠ .Typical) :
    get_lidar_conf_req entry none = none ∧
    get_lidar_conf io entry none = .panicked ∧
    (∀ p, (get_lidar_conf_req entry (some p)).isSome = true) := by
  cases entry
  case Count => exact absurd rfl hc
  case Typical => exact absurd rfl ht
  all_goals exact ⟨rfl, rfl, fun p => rfl⟩

/-- Witness for C10 at the selector `MaxDistance` on the failing-write
transport. -/
theorem get_lidar_conf_none_panics_witness :
    get_lidar_conf_req .MaxDistance none = none ∧
    get_lidar_conf failingWrite .MaxDistance none = .panicked ∧
    (get_lidar_conf_req .MaxDistance (some 0)).isSome = true := by
  obtain ⟨h1, h2, h3⟩ :=
    get_lidar_conf_none_panics failingWrite .MaxDistance (by decide) (by decide)
  exact ⟨h1, h2, h3 0⟩

end Rangefinder
